import Mathlib

/-!
Verification development for the table-based data-access layer of the
`base-accessors` repository.

The definitions below are a shallow embedding of the C++ sources:

* `TableConstDataIterator` (`init`, `next`, `hasMore`, `setUpIteration`,
  `makeUniformDataDescID`, `makeUniformFieldID`, `fillCube`, `fillFlag`,
  `getChannelRange`, `fillParallacticAngleCache`) from
  `askap/dataaccess/TableScalarFieldSelector.cc` (the file also holds the
  iterator implementation);
* `WholeRowFlagger` from the same file;
* `FeedSubtableHandler::newBeamDetails` / `fillCacheOnDemand` from
  `askap/dataaccess/FeedSubtableHandler.cc`;
* `FieldSubtableHandler::newField` from
  `askap/dataaccess/FieldSubtableHandler.cc`;
* `TableDataIterator::writeOriginalFlag` from the table data iterator
  implementation file.

Modelling conventions: a measurement-set main-table row is reduced to the
fields the iterator logic reads (TIME, DATA_DESC_ID, FIELD_ID and the shape
of the visibility cell).  TIME is only ever compared for equality by the
grouping iterator, so it is held as an `Int`.  casacore `Double` quantities
that take part in arithmetic (epochs of the subtable handlers, frequencies,
parallactic angles) are held as `ℚ`.  The casacore `TableIterator` over TIME
(Ascending, NoSort) delivers maximal runs of consecutive rows with equal
TIME; it is past the end exactly when the current sub-table is empty.  A
table cell holding a (nPol, nChan) array is a `List (List α)` indexed first
by polarisation, then by channel (cells are rectangular in a measurement
set).  Contents of a casacore array after a shape-changing `resize` are
unspecified; they are modelled by an explicit "previous contents" argument.
Exceptions (`ASKAPTHROW` / `ASKAPCHECK`) become `Except DataAccessError`.
Debug-only assertions (`ASKAPDEBUGASSERT`) are not modelled.
-/

deriving instance DecidableEq for Except

/-- Errors thrown by the data-access layer (`DataAccessError` and the
`ASKAPCHECK`/`ASKAPTHROW` messages of the embedded functions). -/
inductive DataAccessError where
  /-- channel selection extends beyond the channels available
      (`makeUniformDataDescID`): available, selected number, start. -/
  | selection (avail nsel start : Nat)
  /-- "Can only do a single channel in frequency selection mode". -/
  | multiFreq
  /-- "Frequency axis non-linear, cannot do frequency selection". -/
  | nonLinearFreq
  /-- "Number of polarizations is not conformant for row r". -/
  | shapePol (row : Nat)
  /-- "Number of channels is not conformant for row r". -/
  | shapeChan (row : Nat)
  /-- "Flag modification attempted to unflag data for the row r which is
      flagged via row-based flagging mechanism". -/
  | consistency (row : Nat)
  /-- "Unknown mount type m for antenna a". -/
  | unknownMount (ant : Nat) (mount : String)
  deriving DecidableEq, Repr

/-- One main-table row, reduced to the columns the iterator logic reads:
TIME (only compared for equality), DATA_DESC_ID, FIELD_ID, and the shape
(nPol, nChan) of the row's visibility-column cell. -/
structure Row where
  time : Int
  ddid : Int
  fieldId : Int
  nPol : Nat
  nChan : Nat
  deriving DecidableEq, Repr

/-- A throw-away row used for (unreachable) out-of-range column reads. -/
def defaultRow : Row := ⟨0, -1, -1, 0, 0⟩

/-- Configuration of one `TableConstDataIterator`: the maximum chunk size
(ctor default `INT_MAX`), the channel selection recorded by the selector
(`getChannelSelection`, `none` when `channelsSelected()` is false), and
whether the main table has a FIELD_ID column (`itsUseFieldID`). -/
structure Config where
  maxChunkSize : Nat
  chanSel : Option (Nat × Nat)
  useFieldID : Bool
  deriving DecidableEq, Repr

/-- Mutable state of a `TableConstDataIterator`.  `tabIter` holds the
time-groups not yet passed by the casacore `TableIterator`; its head is the
group the iterator is positioned on, and the iterator is `pastEnd` exactly
when the list is empty.  The remaining fields are `itsCurrentIteration`,
`itsCurrentTopRow`, `itsNumberOfRows`, `itsCurrentDataDescID`,
`itsCurrentFieldID`, `itsNumberOfPols`, `itsNumberOfChannels` and
`itsAtStart`. -/
structure IterState where
  tabIter : List (List Row)
  curIteration : List Row
  topRow : Nat
  numRows : Nat
  curDDID : Int
  curFieldID : Int
  numberOfPols : Nat
  numberOfChannels : Nat
  atStart : Bool
  deriving DecidableEq, Repr

/-- State of a freshly constructed iterator, before the constructor's call
to `init()` (`itsAtStart(false)` in the initialiser list). -/
def freshState : IterState :=
  { tabIter := [], curIteration := [], topRow := 0, numRows := 0,
    curDDID := -100, curFieldID := -100, numberOfPols := 0,
    numberOfChannels := 0, atStart := false }

/-- Helper for `timeRuns`: `acc` holds the current run (reversed), keyed by
the TIME value `t`. -/
def timeRunsGo (t : Int) (acc : List Row) : List Row → List (List Row)
  | [] => [acc.reverse]
  | x :: xs =>
      if x.time == t then timeRunsGo t (x :: acc) xs
      else acc.reverse :: timeRunsGo x.time [x] xs

/-- The casacore `TableIterator` over TIME with `Ascending, NoSort`: it
delivers maximal runs of consecutive rows with equal TIME values. -/
def timeRuns : List Row → List (List Row)
  | [] => []
  | r :: rs => timeRunsGo r.time [r] rs

/-- The row `itsCurrentIteration` column access at `itsCurrentTopRow`. -/
def topRowOf (st : IterState) : Row :=
  st.curIteration.getD st.topRow defaultRow

/-- The `for (uInt row=1;row<itsNumberOfRows;++row)` cut loop at the end of
`makeUniformDataDescID`: the new `itsNumberOfRows` is the position of the
first row (starting from `itsCurrentTopRow+1`) whose DATA_DESC_ID differs
from `itsCurrentDataDescID`, or the old `itsNumberOfRows` if none differs. -/
def ddCut (st : IterState) : Nat :=
  1 + (((st.curIteration.drop (st.topRow + 1)).take (st.numRows - 1)).takeWhile
        (fun r => r.ddid == st.curDDID)).length

/-- `TableConstDataIterator::makeUniformDataDescID`.  Reads DATA_DESC_ID at
the top row; on a change of descriptor it invalidates spectral caches (not
modelled), records the new descriptor, reads the visibility-cell shape of
the top row into `itsNumberOfPols`/`itsNumberOfChannels` and, if a channel
selection is active, throws when the selection extends beyond the channels
available.  Finally the chunk is cut to a uniform DATA_DESC_ID. -/
def makeUniformDataDescID (cfg : Config) (st : IterState) :
    Except DataAccessError IterState :=
  let newDD := (topRowOf st).ddid
  if newDD ≠ st.curDDID then
    let st1 := { st with curDDID := newDD,
                         numberOfPols := (topRowOf st).nPol,
                         numberOfChannels := (topRowOf st).nChan }
    match cfg.chanSel with
    | some (nsel, start) =>
        if st1.numberOfChannels < nsel + start then
          .error (.selection st1.numberOfChannels nsel start)
        else .ok { st1 with numRows := ddCut st1 }
    | none => .ok { st1 with numRows := ddCut st1 }
  else .ok { st with numRows := ddCut st }

/-- The analogous cut loop of `makeUniformFieldID`. -/
def fieldCut (st : IterState) : Nat :=
  1 + (((st.curIteration.drop (st.topRow + 1)).take (st.numRows - 1)).takeWhile
        (fun r => r.fieldId == st.curFieldID)).length

/-- `TableConstDataIterator::makeUniformFieldID`: does nothing unless
`itsUseFieldID`; otherwise records a changed FIELD_ID (invalidating the
direction caches, not modelled) and cuts the chunk to a uniform FIELD_ID.
It throws nothing. -/
def makeUniformFieldID (cfg : Config) (st : IterState) : IterState :=
  if cfg.useFieldID then
    let newF := (topRowOf st).fieldId
    let st1 := if newF ≠ st.curFieldID then { st with curFieldID := newF } else st
    { st1 with numRows := fieldCut st1 }
  else st

/-- `TableConstDataIterator::setUpIteration`: loads the current table-iterator
group into `itsCurrentIteration`, sets `itsNumberOfRows` to at most
`itsMaxChunkSize` rows, and (for a non-empty group) makes the chunk uniform.
The cache-invalidation block is not modelled (no claim depends on it). -/
def setUpIteration (cfg : Config) (st : IterState) :
    Except DataAccessError IterState :=
  let cur := st.tabIter.headD []
  let n := min cur.length cfg.maxChunkSize
  let st1 := { st with curIteration := cur, numRows := n }
  if n ≠ 0 then do
    let st2 ← makeUniformDataDescID cfg st1
    .ok (makeUniformFieldID cfg st2)
  else
    .ok { st1 with numberOfChannels := 0, numberOfPols := 0,
                   curDDID := -100, curFieldID := -100 }

/-- `TableConstDataIterator::init` (= `restart()`): a no-op when the iterator
is already freshly restarted (`itsAtStart`); otherwise it re-executes the
selection, re-opens the TIME-grouped scan, resets the cursor and chunk
state, runs `setUpIteration` and marks the iterator as at-start.  `p` is
the row predicate denoted by the selector's table expression
(`getTableSelector`); rows failing it are excluded from the scan. -/
def initIter (cfg : Config) (p : Row → Bool) (tbl : List Row)
    (st : IterState) : Except DataAccessError IterState :=
  if st.atStart then .ok st
  else do
    let st1 : IterState :=
      { freshState with tabIter := timeRuns (tbl.filter p),
                        numberOfPols := st.numberOfPols,
                        numberOfChannels := st.numberOfChannels }
    let st2 ← setUpIteration cfg st1
    .ok { st2 with atStart := true }

/-- `TableConstDataIterator::hasMore`: more data when the table iterator is
not past the end, or when `itsCurrentTopRow + itsNumberOfRows` is below the
number of rows of `itsCurrentIteration`. -/
def hasMore (st : IterState) : Bool :=
  decide (st.tabIter ≠ []) ||
    decide (st.topRow + st.numRows < st.curIteration.length)

/-- `TableConstDataIterator::next`: advances the top row by the chunk size;
when the current group is exhausted the top row is reset to zero and the
table iterator advanced (running `setUpIteration` unless past the end);
otherwise the next chunk is formed from the remainder of the group and made
uniform. -/
def nextIter (cfg : Config) (st0 : IterState) :
    Except DataAccessError IterState :=
  let st := { st0 with atStart := false }
  let top := st.topRow + st.numRows
  if top ≥ st.curIteration.length then
    let st1 := { st with topRow := 0, tabIter := st.tabIter.drop 1 }
    if st1.tabIter ≠ [] then setUpIteration cfg st1 else .ok st1
  else
    let remainder := st.curIteration.length - top
    let st1 := { st with topRow := top,
                         numRows := min remainder cfg.maxChunkSize }
    do
      let st2 ← makeUniformDataDescID cfg st1
      .ok (makeUniformFieldID cfg st2)

/-- The rows of the chunk the accessor currently exposes:
`[itsCurrentTopRow, itsCurrentTopRow + itsNumberOfRows)` of
`itsCurrentIteration`. -/
def currentChunk (st : IterState) : List Row :=
  (st.curIteration.drop st.topRow).take st.numRows

/-- The consumer protocol `while (hasMore()) { use *it; next(); }`, run for
at most `fuel` steps: the list of chunks delivered by the iterator. -/
def runChunks (cfg : Config) : Nat → IterState →
    Except DataAccessError (List (List Row))
  | 0, _ => .ok []
  | fuel + 1, st =>
      if hasMore st then do
        let st' ← nextIter cfg st
        let rest ← runChunks cfg fuel st'
        .ok (currentChunk st :: rest)
      else .ok []

/-- Restart a fresh iterator on `tbl` with selection `p` and collect the
chunks it delivers (at most `fuel` of them). -/
def deliveredFrom (cfg : Config) (p : Row → Bool) (tbl : List Row)
    (fuel : Nat) : Except DataAccessError (List (List Row)) := do
  let st ← initIter cfg p tbl freshState
  runChunks cfg fuel st

/-- A chunk is uniform in DATA_DESC_ID when every row agrees with the first. -/
def ddUniform (chunk : List Row) : Bool :=
  chunk.all (fun r => r.ddid == (chunk.headD defaultRow).ddid)

/-- The channel-selection state held by `TableDataSelector`
(`itsChannelSelection`; `none` models the "no selection" sentinel). -/
structure SelectorState where
  chanSel : Option (Nat × Nat)
  deriving DecidableEq, Repr

/-- Modelled from the spec: the body of `TableDataSelector::chooseChannels`
is not under `src/` (only its declaration and documentation in
`TableDataSelector.h`).  Per the spec ("bounds are only knowable once the
actual channel count is read", §4.1/§7) and the header documentation ("This
class actually doesn't care about the meaning of these two numbers and just
passes them across"), it merely records the requested (nChan, start) pair
and performs no validation; it cannot fail. -/
def chooseChannels (_sel : SelectorState) (nChan start : Nat) : SelectorState :=
  { chanSel := some (nChan, start) }

/-- `std::lrint` under the default rounding mode: round to the nearest
integer, ties to even. -/
def lrintQ (q : ℚ) : ℤ :=
  let f : ℤ := ⌊q⌋
  let r : ℚ := q - f
  if r < 1 / 2 then f
  else if 1 / 2 < r then f + 1
  else if f % 2 = 0 then f else f + 1

/-- The linearity check of `getChannelRange`:
`abs((dataFreqs(nFreq-1)-dataFreqs(0))/((nFreq-1)*freqInc)-1) < 0.001`. -/
def linearAxisOk (dataFreqs : List ℚ) : Bool :=
  let f0 := dataFreqs.getD 0 0
  let freqInc := dataFreqs.getD 1 0 - f0
  let fend := dataFreqs.getLastD 0
  let n : ℚ := (dataFreqs.length : ℚ) - 1
  decide (|(fend - f0) / (n * freqInc) - 1| < 1 / 1000)

/-- Result of `TableConstDataIterator::getChannelRange`:
(`itsNumberOfChannelsSelected`, `itsStartChannelSelected`) together with
the `itsFlagData` member it sets. -/
structure ChanRangeResult where
  nChanSel : Nat
  startChan : Nat
  flagData : Bool
  deriving DecidableEq, Repr

/-- The frequency-selection branch of
`TableConstDataIterator::getChannelRange` (entered when
`frequenciesSelected()` and `!itsChannelsSelected`).  `nFreqSel` and
`requiredFreq` are the first component of `getFrequencySelection()` and the
selected frequency after conversion back to the data frame
(`backw(std::get<1>(freqSel))`); `dataFreqs` is the spectral-window
frequency axis.  `itsFlagData` starts `true`; the nearest channel to the
requested frequency (assuming a linear axis) is selected when it lies
within the axis; otherwise the start channel is clamped to the last channel
(the comparison `nearestChannel >= nFreq` converts the signed channel to
`uInt`, so it also holds for negative channels) and `itsFlagData` stays
`true`.  No exception is thrown for an out-of-range frequency; exceptions
are thrown only for a multi-channel frequency selection and for a
non-linear axis. -/
def getChannelRangeFreq (nFreqSel : Int) (requiredFreq : ℚ)
    (dataFreqs : List ℚ) : Except DataAccessError ChanRangeResult :=
  if 1 < nFreqSel then .error .multiFreq
  else
    let nFreq := dataFreqs.length
    if 1 < nFreq then
      if ¬ linearAxisOk dataFreqs then .error .nonLinearFreq
      else
        let f0 := dataFreqs.getD 0 0
        let freqInc := dataFreqs.getD 1 0 - f0
        let channel := (requiredFreq - f0) / freqInc
        let nearestChannel := lrintQ channel
        if 0 ≤ nearestChannel ∧ nearestChannel < (nFreq : Int) then
          .ok { nChanSel := 1, startChan := nearestChannel.toNat,
                flagData := false }
        else
          -- `nearestChannel >= nFreq` after int → uInt conversion: true for
          -- every out-of-range channel, so the start channel is clamped.
          .ok { nChanSel := 1, startChan := nFreq - 1, flagData := true }
    else .ok { nChanSel := 1, startChan := 0, flagData := true }

/-- A per-chunk cube, indexed (row, channel, polarisation) like the
casacore `Cube` buffers filled by `fillCube`. -/
abbrev Cube (α : Type) : Type := List (List (List α))

/-- `flag = true` applied after `fillCube(flag, "FLAG")` in `fillFlag` when
`itsFlagData` is set: all elements become `true`, the shape is kept. -/
def fillFlagPost (flagData : Bool) (cube : Cube Bool) : Cube Bool :=
  if flagData then cube.map (fun pl => pl.map (fun r => r.map (fun _ => true)))
  else cube

/-- `cube.yzPlane(i) = true`: every element of plane `i` becomes `true`.
`List.set` leaves the cube unchanged for `i` outside the cube — in casacore
such a write is out of bounds (undefined behaviour / `ArrayIndexError`). -/
def setPlaneAllTrue (cube : Cube Bool) (i : Nat) : Cube Bool :=
  cube.set i ((cube.getD i []).map (fun r => r.map (fun _ => true)))

/-- The shape of the `WholeRowFlagger<T>::copyRequired` hook used by
`fillCube`: given the row index it is called with and the cube, it decides
whether an element-by-element copy is needed and may update the cube. -/
abbrev FlaggerT (α : Type) : Type := Nat → Cube α → Bool × Cube α

/-- The primary `WholeRowFlagger<T>` template (used for the
`casacore::Complex` visibility cube): `copyRequired` always answers `true`
and never touches the cube. -/
def wholeRowFlaggerGeneric {α : Type} : FlaggerT α := fun _ cube => (true, cube)

/-- The `WholeRowFlagger<casacore::Bool>` specialisation: when the dataset
has a FLAG_ROW column and it is set for the row index passed in, the whole
plane at that index is set to `true` and the copy is skipped.  `fillCube`
passes `row + itsCurrentTopRow`: FLAG_ROW is correctly read at the absolute
table row, but `cube.yzPlane` is taken at that same absolute index although
the cube is chunk-sized. -/
def wholeRowFlaggerBool (hasFlagRow : Bool) (flagRowCol : List Bool) :
    FlaggerT Bool := fun absRow cube =>
  if hasFlagRow then
    if flagRowCol.getD absRow false then (false, setPlaneAllTrue cube absRow)
    else (true, cube)
  else (true, cube)

/-- The channel slice + transpose copy of `fillCube`:
`cube(row,chan,pol) = buf(pol,chan)` where `buf` is the cell restricted to
channels `[startChan, startChan + nChanSel)`. -/
def slicePlane {α : Type} (dflt : α) (nChanSel startChan nPols : Nat)
    (cell : List (List α)) : List (List α) :=
  (List.range nChanSel).map (fun ch =>
    (List.range nPols).map (fun p => (cell.getD p []).getD (startChan + ch) dflt))

/-- `TableConstDataIterator::fillCube` (templated over the element type,
with the behaviour of `WholeRowFlagger<T>` supplied as `flagger`).  `col`
is the table column of the current time-group iteration: one (nPol, nChan)
cell per group row.  For each chunk row, the cell shape is checked against
the established `itsNumberOfPols`/`itsNumberOfChannels` of the chunk —
note the source reads `tableCol.shape(row)` at the chunk-relative index
`row`, while the data are read at the absolute index
`row + itsCurrentTopRow`.  `initCube` is the cube after
`cube.resize(itsNumberOfRows, nChan, itsNumberOfPols)`, whose contents are
unspecified. -/
def fillCubeT {α : Type} (dflt : α) (flagger : FlaggerT α)
    (col : List (List (List α))) (topRow numRows estPols estChans : Nat)
    (startChan nChanSel : Nat) (initCube : Cube α) :
    Except DataAccessError (Cube α) :=
  (List.range numRows).foldlM (fun cube row =>
    let shape := col.getD row []
    let thisRowNumberOfPols := shape.length
    let thisRowNumberOfChannels := (shape.getD 0 []).length
    if thisRowNumberOfPols ≠ estPols then .error (.shapePol row)
    else if thisRowNumberOfChannels ≠ estChans then .error (.shapeChan row)
    else
      let pr := flagger (row + topRow) cube
      if pr.1 then
        .ok (pr.2.set row
              (slicePlane dflt nChanSel startChan estPols
                (col.getD (row + topRow) [])))
      else .ok pr.2) initCube

/-- `fillCube` instantiated for the complex visibility column (the primary
`WholeRowFlagger` template: no FLAG_ROW shortcut, ever). -/
def fillVisCube (col : List (List (List Int)))
    (topRow numRows estPols estChans startChan nChanSel : Nat)
    (initCube : Cube Int) : Except DataAccessError (Cube Int) :=
  fillCubeT 0 wholeRowFlaggerGeneric col topRow numRows estPols estChans
    startChan nChanSel initCube

/-- `fillCube` instantiated for the FLAG column (the
`WholeRowFlagger<casacore::Bool>` specialisation). -/
def fillFlagCube (hasFlagRow : Bool) (flagRowCol : List Bool)
    (col : List (List (List Bool)))
    (topRow numRows estPols estChans startChan nChanSel : Nat)
    (initCube : Cube Bool) : Except DataAccessError (Cube Bool) :=
  fillCubeT false (wholeRowFlaggerBool hasFlagRow flagRowCol) col topRow
    numRows estPols estChans startChan nChanSel initCube

/-- The cache-management state of `FeedSubtableHandler`:
`itsCachedSpWindow` (`-1` is the wildcard, `-2` the never-filled sentinel),
`itsCachedStartTime` and `itsCachedStopTime`. -/
structure FeedCacheState where
  cachedSpWindow : Int
  cachedStartTime : ℚ
  cachedStopTime : ℚ
  deriving DecidableEq, Repr

/-- `FeedSubtableHandler::newBeamDetails`: the cache is valid (returns
`false`) when `dTime >= itsCachedStartTime && dTime <= itsCachedStopTime`
and the spectral window matches or the cached one is the wildcard `-1`. -/
def newBeamDetails (c : FeedCacheState) (dTime : ℚ) (spWinID : Nat) : Bool :=
  if c.cachedStartTime ≤ dTime ∧ dTime ≤ c.cachedStopTime ∧
      ((spWinID : Int) = c.cachedSpWindow ∨ c.cachedSpWindow = -1) then false
  else true

/-- `FeedSubtableHandler::fillCacheOnDemand` re-reads the subtable exactly
when `newBeamDetails` answers `true`; the returned Bool is whether a
re-fetch (`fillCache`) happens. -/
def fillCacheOnDemandRefetches (c : FeedCacheState) (dTime : ℚ)
    (spWinID : Nat) : Bool :=
  newBeamDetails c dTime spWinID

/-- The cache-management state of `FieldSubtableHandler`:
`itsNeverAccessedFlag`, `itsCachedStartTime`, `itsCachedStopTime` and the
number of rows of the FIELD subtable. -/
structure FieldCacheState where
  neverAccessed : Bool
  cachedStartTime : ℚ
  cachedStopTime : ℚ
  tableRows : Nat
  deriving DecidableEq, Repr

/-- `FieldSubtableHandler::newField`: always `true` before the first
access; `true` when the epoch precedes the cached start; `false` for a
single-row FIELD table; otherwise `true` exactly when the epoch exceeds
the cached stop time. -/
def newField (c : FieldCacheState) (dTime : ℚ) : Bool :=
  if c.neverAccessed then true
  else if dTime < c.cachedStartTime then true
  else if c.tableRows = 1 then false
  else decide (c.cachedStopTime < dTime)

/-- The row-based flag consistency check of
`TableDataIterator::writeOriginalFlag`: when the dataset has a FLAG_ROW
column, scan the chunk rows in order; the first row whose FLAG_ROW (read at
the absolute row `row + topRow` of the iteration) is set while the new flag
cube has at least one unflagged element in the corresponding plane raises
the consistency error; with no such row (or no FLAG_ROW column) the check
passes and the cube is written back. -/
def writeOriginalFlagCheck (hasFlagRow : Bool) (rowBasedFlag : List Bool)
    (topRow : Nat) (flags : Cube Bool) : Except DataAccessError Unit :=
  if hasFlagRow then
    match (List.range flags.length).find? (fun row =>
        rowBasedFlag.getD (row + topRow) false &&
          (flags.getD row []).any (fun chanRow => chanRow.any (fun b => !b))) with
    | some row => .error (.consistency row)
    | none => .ok ()
  else .ok ()

/-- `TableConstDataIterator::fillParallacticAngleCache`.  The buffer is
resized to the number of antennas (`buf` models its unspecified contents
after the resize).  If all antennas are equatorially mounted, every angle
is set to zero.  Otherwise, per antenna: ALT-AZ/alt-az mounts get the
computed parallactic angle (`altAzPA`, left abstract — no claim depends on
its value); FIXED/fixed and X-Y/x-y mounts get zero; any other mount that
is not EQUATORIAL/equatorial raises an error naming the antenna and the
mount; an EQUATORIAL/equatorial mount falls through every branch and its
entry is left untouched. -/
def fillParallacticAngleCache (allEquatorial : Bool) (mounts : List String)
    (altAzPA : Nat → ℚ) (buf : List ℚ) : Except DataAccessError (List ℚ) :=
  if allEquatorial then .ok (mounts.map (fun _ => 0))
  else
    (List.range mounts.length).foldlM (fun angles ant =>
      let m := mounts.getD ant ""
      if m = "ALT-AZ" ∨ m = "alt-az" then .ok (angles.set ant (altAzPA ant))
      else if m = "FIXED" ∨ m = "fixed" then .ok (angles.set ant 0)
      else if m = "X-Y" ∨ m = "x-y" then .ok (angles.set ant 0)
      else if m ≠ "EQUATORIAL" ∧ m ≠ "equatorial" then
        .error (.unknownMount ant m)
      else .ok angles) buf

/-- The trivial selection (no selector calls): every row passes. -/
def selAll : Row → Bool := fun _ => true

/-- Two rows sharing one TIME value and one DATA_DESC_ID. -/
def rowT0 : Row := ⟨0, 0, 0, 1, 1⟩

/-- Like `rowT0` but with FIELD_ID 1, to tell the rows apart. -/
def rowT1 : Row := ⟨0, 0, 1, 1, 1⟩

/-- Iterator configuration with `maxChunkSize = 1`, no channel selection,
no FIELD_ID column. -/
def cfgOne : Config := ⟨1, none, false⟩

/-- A row with DATA_DESC_ID 0. -/
def rowD0 : Row := ⟨0, 0, 0, 1, 1⟩

/-- A row with DATA_DESC_ID 1 and the same TIME as `rowD0`. -/
def rowD1 : Row := ⟨0, 1, 0, 1, 1⟩

/-- Iterator configuration with an effectively unbounded chunk size. -/
def cfgBig : Config := ⟨1000000, none, false⟩

/-- The state `init()` produces for an empty (fully deselected) dataset. -/
def stEmptyStarted : IterState := { freshState with atStart := true }

/-- A successful two-step `Except` computation decomposes: when the bound
sequence ends in `.ok`, the first step produced some intermediate value
and the continuation succeeded on it. -/
theorem okOfBind {ε σ τ : Type} {m : Except ε σ} {g : σ → Except ε τ}
    {r : τ} (h : (m >>= g) = .ok r) : ∃ s, m = .ok s ∧ g s = .ok r := by
  cases m with
  | error e => exact Except.noConfusion h
  | ok s => exact ⟨s, rfl, h⟩

/-- Claim C1: concatenating the chunks delivered from `restart()` until
`hasMore()` becomes false must yield exactly the rows matching the
selection, in order, with no duplicates.  The code violates this: for a
dataset whose last time-group is split into several chunks
(`maxChunkSize = 1` here), `next()` resets `itsCurrentTopRow` to zero
before advancing the table iterator past the end, so `hasMore()` keeps
comparing stale values against the group size and the iterator re-delivers
rows of the final group.  Here the two matching rows are `rowT0, rowT1`,
but the delivered chunks are `[rowT0], [rowT1], [rowT0]`: `rowT0` is
delivered twice. -/
theorem iterator_duplicates_rows_after_final_group :
    deliveredFrom cfgOne selAll [rowT0, rowT1] 10 =
      .ok [[rowT0], [rowT1], [rowT0]] ∧
    [rowT0, rowT1].filter selAll = [rowT0, rowT1] ∧
    List.count rowT0 (List.flatten [[rowT0], [rowT1], [rowT0]]) = 2 :=
  ⟨by decide, by decide, by decide⟩

/-- Claim C2: every delivered chunk must have a constant DATA_DESC_ID.
The code violates this through the same stale-`hasMore` slip as C1: after
the table iterator passes the end, the chunk
`[itsCurrentTopRow = 0, itsNumberOfRows)` of the stale final group is
delivered again, and its extent is the stale chunk length rather than a
`makeUniformDataDescID` cut.  For a single time-group with DATA_DESC_IDs
`0, 1, 1` the delivered chunks are `[rowD0], [rowD1, rowD1]` and then the
non-uniform `[rowD0, rowD1]`. -/
theorem iterator_delivers_nonuniform_chunk :
    deliveredFrom cfgBig selAll [rowD0, rowD1, rowD1] 10 =
      .ok [[rowD0], [rowD1, rowD1], [rowD0, rowD1]] ∧
    ddUniform [rowD0, rowD1] = false :=
  ⟨by decide, by decide⟩

/-- Claim C3: calling `restart()` (`init()`) twice in a row with no
intervening advance leaves the iterator in the same state as calling it
once, so the first chunk delivered afterwards is the same.  `init()` is
guarded by `itsAtStart`, which it sets on success and which only `next()`
clears, so the second `init()` is a no-op. -/
theorem restart_idempotent (cfg : Config) (p : Row → Bool) (tbl : List Row)
    (st st' : IterState) (h : initIter cfg p tbl st = .ok st') :
    initIter cfg p tbl st' = .ok st' := by
  have hAt : st'.atStart = true := by
    unfold initIter at h
    split at h
    · next hs =>
        injection h with h1
        rw [← h1]
        exact hs
    · obtain ⟨st2, -, h2⟩ := okOfBind h
      injection h2 with h3
      rw [← h3]
  unfold initIter
  simp [hAt]

/-- Witness for C3 at a concrete input: restarting the already-restarted
iterator over the empty dataset returns the same state. -/
theorem restart_idempotent_witness :
    initIter cfgOne selAll [] stEmptyStarted = .ok stEmptyStarted :=
  restart_idempotent cfgOne selAll [] freshState stEmptyStarted (by decide)

/-- Claim C4: a channel selection extending beyond the channels available
raises the selection error inside `makeUniformDataDescID`, and only when
the data-descriptor id changes (the channel count is read from the new
descriptor's top row); building the selection never raises — the
selector's `chooseChannels` merely records the pair. -/
theorem selection_error_on_descriptor_change_iff :
    (∀ (cfg : Config) (st : IterState),
      (∃ e, makeUniformDataDescID cfg st = .error e) ↔
        ((topRowOf st).ddid ≠ st.curDDID ∧
          ∃ nsel start, cfg.chanSel = some (nsel, start) ∧
            (topRowOf st).nChan < nsel + start)) ∧
    (∀ (sel : SelectorState) (n s : Nat),
      chooseChannels sel n s = ⟨some (n, s)⟩) := by
  constructor
  · intro cfg st
    unfold makeUniformDataDescID
    by_cases hd : (topRowOf st).ddid ≠ st.curDDID
    · rcases hc : cfg.chanSel with _ | ⟨nsel, start⟩
      · simp [hc, hd]
      · by_cases hb : (topRowOf st).nChan < nsel + start
        · simp [hc, hb, hd]
          exact ⟨nsel, start, ⟨rfl, rfl⟩, hb⟩
        · simp [hc, hb, hd]
          exact not_lt.mp hb
    · simp [hd]
  · intro sel n s
    rfl

/-- Claim C5 counterexample: the claim asserts that a frequency selection
mapping to a channel outside the axis raises a `SelectionError`.  With a
linear three-channel axis `[1, 2, 3]` and a selected frequency of `10`
(nearest channel 9, outside the axis), `getChannelRange` raises nothing:
it returns normally with the start channel clamped to the last channel and
`itsFlagData` set. -/
theorem freq_selection_out_of_range_not_an_error :
    getChannelRangeFreq 1 10 [1, 2, 3] = .ok ⟨1, 2, true⟩ ∧
    lrintQ ((10 - 1) / (2 - 1)) = 9 ∧ (3 : Int) ≤ 9 := by
  refine ⟨?_, by norm_num [lrintQ], by norm_num⟩
  have hlin : linearAxisOk [1, 2, 3] = true := by
    simp only [linearAxisOk, List.getD, List.getLastD, decide_eq_true_eq]
    norm_num
  have hnear : lrintQ ((10 - [(1:ℚ), 2, 3].getD 0 0) /
      ([(1:ℚ), 2, 3].getD 1 0 - [(1:ℚ), 2, 3].getD 0 0)) = 9 := by
    simp only [List.getD]
    norm_num [lrintQ]
  simp only [getChannelRangeFreq]
  rw [if_neg (by norm_num : ¬ (1:Int) < 1),
      if_pos (by norm_num : 1 < [(1:ℚ), 2, 3].length),
      if_neg (not_not_intro hlin), hnear,
      if_neg (by norm_num : ¬ ((0:Int) ≤ 9 ∧ (9:Int) < [(1:ℚ), 2, 3].length))]
  decide

/-- Claim C5 amended: when the frequency selection, converted to the data
frame and mapped to the nearest channel of a linear frequency axis, falls
outside the channels present, no error is raised; `getChannelRange`
returns with the start channel clamped to the last channel and
`itsFlagData` set, whereupon `fillFlag` replaces the flag cube by an
all-flagged cube (the failure degrades to "all data flagged"). -/
theorem freq_selection_out_of_range_flags_all_data (f : ℚ)
    (dataFreqs : List ℚ) (hlen : 2 ≤ dataFreqs.length)
    (hlin : linearAxisOk dataFreqs = true)
    (hout : lrintQ ((f - dataFreqs.getD 0 0) /
              (dataFreqs.getD 1 0 - dataFreqs.getD 0 0)) < 0 ∨
            (dataFreqs.length : Int) ≤
              lrintQ ((f - dataFreqs.getD 0 0) /
                (dataFreqs.getD 1 0 - dataFreqs.getD 0 0))) :
    getChannelRangeFreq 1 f dataFreqs =
      .ok ⟨1, dataFreqs.length - 1, true⟩ ∧
    ∀ cube : Cube Bool, fillFlagPost true cube =
      cube.map (fun pl => pl.map (fun r => r.map (fun _ => true))) := by
  constructor
  · have hcond : ¬ (0 ≤ lrintQ ((f - dataFreqs.getD 0 0) /
        (dataFreqs.getD 1 0 - dataFreqs.getD 0 0)) ∧
        lrintQ ((f - dataFreqs.getD 0 0) /
          (dataFreqs.getD 1 0 - dataFreqs.getD 0 0)) <
        (dataFreqs.length : Int)) := by
      rcases hout with hneg | hbig <;> (rintro ⟨hge, hlt⟩; omega)
    simp only [getChannelRangeFreq]
    rw [if_neg (by norm_num : ¬ (1:Int) < 1),
        if_pos (by omega : 1 < dataFreqs.length),
        if_neg (not_not_intro hlin), if_neg hcond]
  · intro cube
    rfl

/-- Witness for the amended C5 at the concrete axis `[1, 2, 3]` and
frequency `10`. -/
theorem freq_selection_flags_all_data_witness :
    getChannelRangeFreq 1 10 [1, 2, 3] = .ok ⟨1, 2, true⟩ :=
  (freq_selection_out_of_range_flags_all_data 10 [1, 2, 3] (by norm_num)
    (by simp only [linearAxisOk, List.getD, List.getLastD,
          decide_eq_true_eq]; norm_num)
    (by simp only [List.getD]; right; norm_num [lrintQ])).1

/-- Claim C6: every row whose FLAG_ROW is set must have its entire chunk
row set to flagged, skipping the element-wise copy.  The code violates
this for chunks whose top row is not the first row of the time-group:
`fillCube` hands `copyRequired` the absolute row `row + itsCurrentTopRow`
(correct for reading FLAG_ROW) and the helper then flags
`cube.yzPlane(row + itsCurrentTopRow)` of the chunk-sized cube.  Below:
the chunk covers group rows 1 and 2 (topRow 1), FLAG_ROW is set for
absolute row 1 (= chunk row 0), yet the output leaves chunk row 0 as the
unspecified resize contents (`false` here) and flags chunk row 1 instead
(subsequently overwritten by that row's element copy).  The last conjunct
confirms the shortcut is absent for the visibility instantiation: both
rows are element-copies of the stored data, FLAG_ROW notwithstanding. -/
theorem flag_row_shortcut_flags_wrong_plane :
    fillFlagCube true [false, true, false]
      [[[false]], [[false]], [[false]]] 1 2 1 1 0 1
      [[[false]], [[false]]] = .ok [[[false]], [[false]]] ∧
    [false, true, false].getD (0 + 1) false = true ∧
    ([[[false]], [[false]]] : Cube Bool).getD 0 [] ≠ [[true]] ∧
    fillVisCube [[[7, 7]], [[5, 6]], [[8, 9]]] 1 2 1 2 0 2
      [[[0], [0]], [[0], [0]]] = .ok [[[5], [6]], [[8], [9]]] :=
  ⟨by decide, by decide, by decide, by decide⟩

/-- Claim C7 counterexample: the claim says a cached Feed/Field record is
valid exactly when the epoch lies in the half-open interval
`[startTime, stopTime)`.  At the stop time itself — outside `[start,stop)`
— both handlers still treat the cache as valid (`<=` in the source, a
closed interval): `newBeamDetails` and `newField` answer `false`, so no
re-fetch happens.  A single-row FIELD table is moreover valid arbitrarily
far beyond its stop time. -/
theorem cache_interval_half_open_cex :
    newBeamDetails ⟨3, 0, 10⟩ 10 3 = false ∧
    fillCacheOnDemandRefetches ⟨3, 0, 10⟩ 10 3 = false ∧
    ¬ ((10 : ℚ) < 10) ∧
    newField ⟨false, 0, 10, 2⟩ 10 = false ∧
    newField ⟨false, 0, 10, 1⟩ 99999 = false :=
  ⟨by decide, by decide, by decide, by decide, by decide⟩

/-- Claim C7 amended: a cached record is treated as valid (no re-fetch,
`newBeamDetails`/`newField` report no change) exactly when the query epoch
lies within the closed interval `[startTime, stopTime]` — not the half-open
one — and, for the Feed lookup, the spectral-window id matches or the
cached id is the wildcard `-1`; the Field lookup additionally reports a
change before the first access, and a single-record FIELD table is valid
for every epoch at or beyond its start time. -/
theorem cache_interval_closed_iff :
    (∀ (c : FeedCacheState) (t : ℚ) (s : Nat),
      newBeamDetails c t s = false ↔
        (c.cachedStartTime ≤ t ∧ t ≤ c.cachedStopTime ∧
          ((s : Int) = c.cachedSpWindow ∨ c.cachedSpWindow = -1))) ∧
    (∀ (c : FeedCacheState) (t : ℚ) (s : Nat),
      fillCacheOnDemandRefetches c t s = newBeamDetails c t s) ∧
    (∀ (c : FieldCacheState) (t : ℚ),
      newField c t = false ↔
        (c.neverAccessed = false ∧ c.cachedStartTime ≤ t ∧
          (c.tableRows = 1 ∨ t ≤ c.cachedStopTime))) := by
  refine ⟨?_, fun _ _ _ => rfl, ?_⟩
  · intro c t s
    unfold newBeamDetails
    split_ifs with h
    · simp [h]
    · simp [h]
  · intro c t
    unfold newField
    split_ifs with h1 h2 h3
    · simp [h1]
    · simp [h1, h2, not_le.mpr h2]
    · simp [h1, h3, not_lt.mp h2]
    · simp [h1, h3, not_lt.mp h2, not_lt]

/-- Claim C8: writing back the original flags raises the consistency error
if and only if the dataset has a FLAG_ROW column and some chunk row whose
FLAG_ROW (read at the absolute row) is set has at least one cleared
element in the new flag cube; otherwise (including datasets without
FLAG_ROW) the check passes and the write-back proceeds. -/
theorem write_original_flag_consistency_iff (hasFlagRow : Bool)
    (rowBasedFlag : List Bool) (topRow : Nat) (flags : Cube Bool) :
    ((∃ e, writeOriginalFlagCheck hasFlagRow rowBasedFlag topRow flags =
        .error e) ↔
      (hasFlagRow = true ∧ ∃ row < flags.length,
        rowBasedFlag.getD (row + topRow) false = true ∧
        ∃ chanRow ∈ flags.getD row [], ∃ b ∈ chanRow, b = false)) ∧
    ((writeOriginalFlagCheck hasFlagRow rowBasedFlag topRow flags =
        .ok ()) ↔
      ¬ (hasFlagRow = true ∧ ∃ row < flags.length,
        rowBasedFlag.getD (row + topRow) false = true ∧
        ∃ chanRow ∈ flags.getD row [], ∃ b ∈ chanRow, b = false)) := by
  have key : (∃ row < flags.length,
      rowBasedFlag.getD (row + topRow) false = true ∧
      ∃ chanRow ∈ flags.getD row [], ∃ b ∈ chanRow, b = false) ↔
      ((List.range flags.length).find? (fun row =>
        rowBasedFlag.getD (row + topRow) false &&
          (flags.getD row []).any
            (fun chanRow => chanRow.any (fun b => !b)))).isSome := by
    rw [List.find?_isSome]
    constructor
    · rintro ⟨row, hrow, hflag, chanRow, hcr, b, hb, hbf⟩
      refine ⟨row, List.mem_range.mpr hrow, ?_⟩
      rw [Bool.and_eq_true, hflag]
      refine ⟨rfl, ?_⟩
      rw [List.any_eq_true]
      exact ⟨chanRow, hcr, List.any_eq_true.mpr ⟨b, hb, by simp [hbf]⟩⟩
    · rintro ⟨row, hrow, hp⟩
      rw [Bool.and_eq_true, List.any_eq_true] at hp
      obtain ⟨hflag, chanRow, hcr, hany⟩ := hp
      obtain ⟨b, hb, hbf⟩ := List.any_eq_true.mp hany
      exact ⟨row, List.mem_range.mp hrow, hflag, chanRow, hcr, b, hb,
        by simpa using hbf⟩
  cases hasFlagRow with
  | false => simp [writeOriginalFlagCheck]
  | true =>
    simp only [writeOriginalFlagCheck, if_true, true_and]
    cases hf : (List.range flags.length).find? (fun row =>
        rowBasedFlag.getD (row + topRow) false &&
          (flags.getD row []).any
            (fun chanRow => chanRow.any (fun b => !b))) with
    | none =>
        constructor
        · constructor
          · rintro ⟨e, he⟩
            exact absurd he (by simp)
          · intro hex
            have := key.mp hex
            rw [hf] at this
            exact absurd this (by simp)
        · constructor
          · intro _ hex
            have := key.mp hex
            rw [hf] at this
            exact absurd this (by simp)
          · intro _
            rfl
    | some row =>
        constructor
        · constructor
          · intro _
            have : ((List.range flags.length).find? (fun row =>
                rowBasedFlag.getD (row + topRow) false &&
                  (flags.getD row []).any
                    (fun chanRow => chanRow.any (fun b => !b)))).isSome := by
              rw [hf]; rfl
            exact key.mpr this
          · intro _
            exact ⟨.consistency row, rfl⟩
        · constructor
          · intro hok
            exact absurd hok (by simp)
          · intro hnot
            have : ((List.range flags.length).find? (fun row =>
                rowBasedFlag.getD (row + topRow) false &&
                  (flags.getD row []).any
                    (fun chanRow => chanRow.any (fun b => !b)))).isSome := by
              rw [hf]; rfl
            exact absurd (key.mpr this) hnot

/-- Claim C9: a shape-mismatch error must be raised exactly when some row
of the chunk stores a cube whose shape disagrees with the chunk's
established counts, also for chunks whose top row is not the first row of
the time-group.  The code violates this: `fillCube` checks
`tableCol.shape(row)` at the chunk-relative index but copies the data of
absolute row `row + itsCurrentTopRow`.  Below: a two-row group (shapes
1x2 and 1x3), chunk of one row at topRow 1 with established counts
(1 pol, 2 chan).  The chunk's actual row stores 3 channels, yet the check
inspects group row 0 (1x2, conformant) and the fill succeeds, silently
truncating the nonconformant row. -/
theorem shape_check_misses_nonconformant_row :
    fillVisCube [[[10, 20]], [[30, 40, 50]]] 1 1 1 2 0 2 [[[0], [0]]] =
      .ok [[[30], [40]]] ∧
    (([[[10, 20]], [[30, 40, 50]]] : List (List (List Int))).getD (0 + 1)
        []).getD 0 [] ≠ [30, 40] ∧
    ((([[[10, 20]], [[30, 40, 50]]] : List (List (List Int))).getD (0 + 1)
        []).getD 0 []).length ≠ 2 :=
  ⟨by decide, by decide, by decide⟩

/-- Claim C10: an unrecognised mount string raises an error identifying
the antenna and the mount — confirmed by the third conjunct — but the
claim that every recognised non-alt-az mount yields a parallactic angle of
exactly zero is violated: in a non-all-equatorial array the
EQUATORIAL/equatorial branch assigns nothing, so the entry keeps the
unspecified buffer contents left by `resize` (here `7`).  FIXED and X-Y
mounts are set to zero, as the fourth conjunct shows. -/
theorem unknown_mount_error_and_equatorial_unassigned :
    fillParallacticAngleCache false ["ALT-AZ", "EQUATORIAL"] (fun _ => 0)
      [0, 7] = .ok [0, 7] ∧
    (7 : ℚ) ≠ 0 ∧
    fillParallacticAngleCache false ["ALT-AZ", "HADEC"] (fun _ => 0)
      [0, 0] = .error (.unknownMount 1 "HADEC") ∧
    fillParallacticAngleCache false ["ALT-AZ", "FIXED", "X-Y"] (fun _ => 0)
      [5, 5, 5] = .ok [0, 0, 0] :=
  ⟨by decide, by decide, by decide, by decide⟩
